import Mathlib

/-!
Verification of the deterministic market-data core of the Bentex broker.

The Python sources are embedded shallowly:
* 32-bit unsigned arithmetic (`& 0xFFFFFFFF`) becomes `% 2^32` on `ℕ`;
* Python floats become exact rationals `ℚ`;
* the transcendental part of the Box-Muller transform
  (`sqrt(-2*ln u1) * cos(2*pi*u2)`) and `math.sqrt` cannot be represented
  exactly over `ℚ`, so candle generation is parameterised by an arbitrary
  function `G : ℚ → ℚ → ℚ` (the Gaussian draw from the two uniforms) and
  `msqrt : ℤ → ℚ` (the square root of the timeframe); every structural
  theorem below holds for all such functions, in particular for the real one;
* the sqlite candle table becomes a list of typed rows.
-/

namespace Bentex

/-! ## RNG — src/broker/services/rng.py -/

/-- One iteration of the `xmur3` string-hash loop:
`h ^= ord(char); h = (h * 3432918353) & 0xFFFFFFFF;
h = ((h << 13) | (h >> 19)) & 0xFFFFFFFF`. -/
def xmur3_step (h c : ℕ) : ℕ :=
  let h1 := h ^^^ c
  let h2 := h1 * 3432918353 % 2 ^ 32
  ((h2 <<< 13) ||| (h2 >>> 19)) % 2 ^ 32

/-- The accumulator produced by the `xmur3` character loop, starting from the
constant `1779033703`. -/
def xmur3_hash (s : String) : ℕ :=
  s.data.foldl (fun h c => xmur3_step h c.toNat) 1779033703

/-- One call of the `seed_fn` closure returned by `xmur3`
(xorshift-multiply avalanche with constants 2246822507 and 3266489909,
shifts 16/13/16); the returned value and the new state coincide. -/
def xmur3_seed_step (h : ℕ) : ℕ :=
  let h1 := h ^^^ (h >>> 16)
  let h2 := h1 * 2246822507 % 2 ^ 32
  let h3 := h2 ^^^ (h2 >>> 13)
  let h4 := h3 * 3266489909 % 2 ^ 32
  h4 ^^^ (h4 >>> 16)

/-- The four 32-bit words of the `sfc32` state dictionary. -/
structure Sfc32State where
  a : ℕ
  b : ℕ
  c : ℕ
  d : ℕ
deriving DecidableEq

/-- `sfc32(a, b, c, d)` masks its four arguments to 32 bits on entry. -/
def sfc32_init (a b c d : ℕ) : Sfc32State :=
  ⟨a % 2 ^ 32, b % 2 ^ 32, c % 2 ^ 32, d % 2 ^ 32⟩

/-- One call of the `rng` closure returned by `sfc32`: returns the raw 32-bit
intermediate `t` (the float output is `t / 2^32`) together with the new state. -/
def sfc32_step (s : Sfc32State) : ℕ × Sfc32State :=
  let t0 := (s.a + s.b) % 2 ^ 32
  let a2 := (s.b ^^^ (s.b >>> 9)) % 2 ^ 32
  let b2 := (s.c + (s.c <<< 3)) % 2 ^ 32
  let c0 := ((s.c <<< 21) ||| (s.c >>> 11)) % 2 ^ 32
  let d2 := (s.d + 1) % 2 ^ 32
  let t := (t0 + d2) % 2 ^ 32
  let c2 := (c0 + t) % 2 ^ 32
  (t, ⟨a2, b2, c2, d2⟩)

/-- `create_seeded_rng(seed_string)`: hash the string with `xmur3`, then call
the seed function four times to obtain the initial `sfc32` state
(each call returns the new accumulator masked to 32 bits). -/
def create_seeded_rng (seed_string : String) : Sfc32State :=
  let h0 := xmur3_hash seed_string
  let h1 := xmur3_seed_step h0
  let h2 := xmur3_seed_step h1
  let h3 := xmur3_seed_step h2
  let h4 := xmur3_seed_step h3
  sfc32_init (h1 % 2 ^ 32) (h2 % 2 ^ 32) (h3 % 2 ^ 32) (h4 % 2 ^ 32)

/-- The state after `n` generator calls. -/
def sfc32_iter (s : Sfc32State) : ℕ → Sfc32State
  | 0 => s
  | n + 1 => (sfc32_step (sfc32_iter s n)).2

/-- The raw 32-bit value produced by the `(n+1)`-st generator call. -/
def sfc32_output (s : Sfc32State) (n : ℕ) : ℕ :=
  (sfc32_step (sfc32_iter s n)).1

/-- The float returned by the `(n+1)`-st generator call: `t / 4294967296.0`. -/
def rng_value (s : Sfc32State) (n : ℕ) : ℚ :=
  (sfc32_output s n : ℚ) / 4294967296

/-! ## Specification-side bit-level algorithm (from the spec's words) -/

/-- Left rotation of a 32-bit value by `k` bits, stated arithmetically:
the low `32-k` bits move up by `k` places and the high `k` bits wrap to the
bottom.  This follows the spec's `rotate_left(h, k)` (32-bit rotation). -/
def rotl32 (x k : ℕ) : ℕ :=
  x % 2 ^ (32 - k) * 2 ^ k + x / 2 ^ (32 - k)

/-- The spec's counter-based step: 32-bit wraparound additions, an xor-shift
of `b`, a shift-add of `c`, a 21-bit left rotation of `c`, and an increment
of `d`, with the output `t` an intermediate 32-bit sum. -/
def sfc32_step_spec (s : Sfc32State) : ℕ × Sfc32State :=
  let t0 := (s.a + s.b) % 2 ^ 32
  let a2 := (s.b ^^^ s.b / 2 ^ 9) % 2 ^ 32
  let b2 := (s.c + s.c * 2 ^ 3) % 2 ^ 32
  let c0 := rotl32 s.c 21
  let d2 := (s.d + 1) % 2 ^ 32
  let t := (t0 + d2) % 2 ^ 32
  let c2 := (c0 + t) % 2 ^ 32
  (t, ⟨a2, b2, c2, d2⟩)

/-- The shift-or-mask idiom used by the source is exactly the arithmetic
left rotation, for 32-bit inputs. -/
lemma shift_or_eq_rotl (y k : ℕ) (hk : k ≤ 32) (hy : y < 2 ^ 32) :
    ((y <<< k) ||| (y >>> (32 - k))) % 2 ^ 32 = rotl32 y k := by
  unfold rotl32
  set m := 32 - k with hm
  have hmk : m + k = 32 := by omega
  have hsplit : (2 : ℕ) ^ m * 2 ^ k = 2 ^ 32 := by
    rw [← pow_add, hmk]
  have hq : y / 2 ^ m < 2 ^ k := by
    apply Nat.div_lt_of_lt_mul
    calc y < 2 ^ 32 := hy
    _ = 2 ^ m * 2 ^ k := hsplit.symm
  have hor : (y <<< k) ||| (y >>> m) = y * 2 ^ k + y / 2 ^ m := by
    rw [Nat.shiftLeft_eq, Nat.shiftRight_eq_div_pow, mul_comm y (2 ^ k)]
    exact (Nat.mul_add_lt_is_or hq y).symm
  rw [hor]
  have hde : 2 ^ m * (y / 2 ^ m) + y % 2 ^ m = y := Nat.div_add_mod y (2 ^ m)
  have hr : y % 2 ^ m < 2 ^ m := Nat.mod_lt _ (Nat.pos_pow_of_pos m (by norm_num))
  have hlt : y % 2 ^ m * 2 ^ k + y / 2 ^ m < 2 ^ 32 := by
    calc y % 2 ^ m * 2 ^ k + y / 2 ^ m
        < y % 2 ^ m * 2 ^ k + 2 ^ k := Nat.add_lt_add_left hq _
    _ = (y % 2 ^ m + 1) * 2 ^ k := by ring
    _ ≤ 2 ^ m * 2 ^ k := Nat.mul_le_mul_right _ (by omega)
    _ = 2 ^ 32 := hsplit
  have hsp : y * 2 ^ k + y / 2 ^ m
      = 2 ^ 32 * (y / 2 ^ m) + (y % 2 ^ m * 2 ^ k + y / 2 ^ m) := by
    rw [← hsplit]
    calc y * 2 ^ k + y / 2 ^ m
        = (2 ^ m * (y / 2 ^ m) + y % 2 ^ m) * 2 ^ k + y / 2 ^ m := by rw [hde]
    _ = 2 ^ m * 2 ^ k * (y / 2 ^ m) + (y % 2 ^ m * 2 ^ k + y / 2 ^ m) := by ring
  rw [hsp, Nat.mul_add_mod, Nat.mod_eq_of_lt hlt]

/-- The code's `xmur3` character step agrees with the spec's
xor / multiply-mod-2^32 / rotate-left-13 description. -/
lemma xmur3_step_eq_spec (h c : ℕ) :
    xmur3_step h c = rotl32 ((h ^^^ c) * 3432918353 % 2 ^ 32) 13 := by
  unfold xmur3_step
  exact shift_or_eq_rotl _ 13 (by norm_num) (Nat.mod_lt _ (by norm_num))

lemma sfc32_step_eq_spec (s : Sfc32State) (hc : s.c < 2 ^ 32) :
    sfc32_step s = sfc32_step_spec s := by
  unfold sfc32_step sfc32_step_spec
  have h1 : s.b >>> 9 = s.b / 2 ^ 9 := Nat.shiftRight_eq_div_pow s.b 9
  have h2 : s.c <<< 3 = s.c * 2 ^ 3 := Nat.shiftLeft_eq s.c 3
  have h3 : ((s.c <<< 21) ||| (s.c >>> 11)) % 2 ^ 32 = rotl32 s.c 21 := by
    have := shift_or_eq_rotl s.c 21 (by norm_num) hc
    simpa using this
  rw [h1, h2, h3]

lemma sfc32_output_lt (s : Sfc32State) (n : ℕ) : sfc32_output s n < 2 ^ 32 := by
  unfold sfc32_output sfc32_step
  exact Nat.mod_lt _ (by norm_num)

/-- C1. `create_seeded_rng` implements the specified bit-level algorithm:
the hash stage starts at 1779033703 and per character XORs the codepoint,
multiplies by 3432918353 mod 2^32 and rotates left by 13; the counter stage
matches the spec's wraparound/xor-shift/21-bit-rotation/increment step; every
generator output lies in `[0, 1)`; and equal seed strings give identical
output sequences. -/
theorem C1_create_seeded_rng_bitlevel :
    (∀ h c : ℕ, xmur3_step h c = rotl32 ((h ^^^ c) * 3432918353 % 2 ^ 32) 13)
    ∧ (∀ s : String, xmur3_hash s
        = s.data.foldl
            (fun h c => rotl32 ((h ^^^ c.toNat) * 3432918353 % 2 ^ 32) 13)
            1779033703)
    ∧ (∀ s : Sfc32State, s.c < 2 ^ 32 → sfc32_step s = sfc32_step_spec s)
    ∧ (∀ (s : Sfc32State) (n : ℕ), 0 ≤ rng_value s n ∧ rng_value s n < 1)
    ∧ (∀ s1 s2 : String, s1 = s2 →
        ∀ n, rng_value (create_seeded_rng s1) n
          = rng_value (create_seeded_rng s2) n) := by
  refine ⟨xmur3_step_eq_spec, ?_, sfc32_step_eq_spec, ?_, ?_⟩
  · intro s
    unfold xmur3_hash
    congr 1
    funext h c
    exact xmur3_step_eq_spec h c.toNat
  · intro s n
    constructor
    · exact div_nonneg (by positivity) (by norm_num)
    · rw [rng_value, div_lt_one (by norm_num)]
      have := sfc32_output_lt s n
      exact_mod_cast this
  · intro s1 s2 h n
    rw [h]

/-- Witness for C1: each hypothesis of the theorem discharged at a concrete
input. -/
theorem C1_create_seeded_rng_bitlevel_witness :
    (xmur3_step 5 7 = rotl32 ((5 ^^^ 7) * 3432918353 % 2 ^ 32) 13)
    ∧ ((⟨1, 2, 3, 4⟩ : Sfc32State).c < 2 ^ 32
        ∧ sfc32_step ⟨1, 2, 3, 4⟩ = sfc32_step_spec ⟨1, 2, 3, 4⟩)
    ∧ ("ab" = "ab"
        ∧ rng_value (create_seeded_rng "ab") 0
          = rng_value (create_seeded_rng "ab") 0) :=
  ⟨C1_create_seeded_rng_bitlevel.1 5 7,
   ⟨by norm_num, C1_create_seeded_rng_bitlevel.2.2.1 ⟨1, 2, 3, 4⟩ (by norm_num)⟩,
   ⟨rfl, C1_create_seeded_rng_bitlevel.2.2.2.2 "ab" "ab" rfl 0⟩⟩

/-! ## Candle generator — src/broker/services/deterministic_generator.py -/

/-- The `Candle` dataclass (`start_time_ms, open, high, low, close, volume,
is_partial`); `open` is a Lean keyword, hence the field name `open_`. -/
structure Candle where
  start_time_ms : ℤ
  open_ : ℚ
  high : ℚ
  low : ℚ
  close : ℚ
  volume : ℤ
  isPartial : Bool
deriving DecidableEq

/-- `round(num, price_decimals)`: round to the given number of decimal places.
Python rounds ties to even; Mathlib's `round` rounds ties up.  The claims
under verification never hinge on tie-breaking (they use only monotonicity,
idempotence and `round(int) = int`), so this model is adequate. -/
def round_price (price_decimals : ℕ) (num : ℚ) : ℚ :=
  ((round (num * 10 ^ price_decimals) : ℤ) : ℚ) / 10 ^ price_decimals

/-- Python `int(...)` on a float: truncation toward zero. -/
def pyInt (q : ℚ) : ℤ := if q < 0 then ⌈q⌉ else ⌊q⌋

/-- `rng() or 1e-12`: a draw of exactly `0.0` is replaced by `1e-12`. -/
def gaussian_u (t : ℕ) : ℚ :=
  if t = 0 then 1 / 10 ^ 12 else (t : ℚ) / 4294967296

/-- The `gaussian(rng)` Box-Muller draw.  The two uniforms are produced by
the concrete `sfc32` generator; the transcendental combination
`sqrt(-2*ln u1) * cos(2*pi*u2)` is abstracted as the parameter `G`. -/
def gaussian_draw (G : ℚ → ℚ → ℚ) (s : Sfc32State) : ℚ × Sfc32State :=
  let p1 := sfc32_step s
  let p2 := sfc32_step p1.2
  (G (gaussian_u p1.1) (gaussian_u p2.1), p2.2)

/-- The un-rounded close of `generate_deterministic_candle`:
`prev_close * (1 + z * volatility * sqrt(timeframe_minutes))` where `z` is
the Gaussian draw seeded by `"{seed_base}|candle|{index}"` and `msqrt`
abstracts `math.sqrt`. -/
def close_raw (G : ℚ → ℚ → ℚ) (msqrt : ℤ → ℚ) (seed_base : String) (index : ℤ)
    (prev_close volatility : ℚ) (timeframe_minutes : ℤ) : ℚ :=
  let close_rng := create_seeded_rng (seed_base ++ "|candle|" ++ toString index)
  let z := (gaussian_draw G close_rng).1
  let pct_move := z * volatility * msqrt timeframe_minutes
  prev_close * (1 + pct_move)

/-- The two intraday factors `abs(gaussian(intraday_rng)) * volatility * 0.3`
(high factor drawn first, then low factor, from the generator seeded by
`"{seed_base}|candle|{index}|intraday"`). -/
def intraday_factors (G : ℚ → ℚ → ℚ) (seed_base : String) (index : ℤ)
    (volatility : ℚ) : ℚ × ℚ :=
  let intraday_rng :=
    create_seeded_rng (seed_base ++ "|candle|" ++ toString index ++ "|intraday")
  let d1 := gaussian_draw G intraday_rng
  let d2 := gaussian_draw G d1.2
  (|d1.1| * volatility * (3 / 10), |d2.1| * volatility * (3 / 10))

/-- `int(base_volume * (1 + volume_rng() * 0.5))` with `base_volume = 100`,
seeded by `"{seed_base}|candle|{index}|volume"`. -/
def candle_volume (seed_base : String) (index : ℤ) : ℤ :=
  let volume_rng :=
    create_seeded_rng (seed_base ++ "|candle|" ++ toString index ++ "|volume")
  let u := ((sfc32_step volume_rng).1 : ℚ) / 4294967296
  pyInt (100 * (1 + u * (1 / 2)))

/-- `generate_deterministic_candle`. -/
def generate_deterministic_candle (G : ℚ → ℚ → ℚ) (msqrt : ℤ → ℚ)
    (seed_base : String) (index : ℤ) (prev_close : ℚ) (volatility : ℚ)
    (timeframe_minutes : ℤ) (price_decimals : ℕ) (start_time_ms : ℤ) : Candle :=
  let close := close_raw G msqrt seed_base index prev_close volatility timeframe_minutes
  let open_price := prev_close
  let factors := intraday_factors G seed_base index volatility
  let high := max open_price close * (1 + factors.1)
  let low := min open_price close * (1 - factors.2)
  ⟨start_time_ms, round_price price_decimals open_price,
   round_price price_decimals high, round_price price_decimals low,
   round_price price_decimals close, candle_volume seed_base index, false⟩

/-- `generate_partial_candle`: the forming candle, interpolated toward the
deterministic target candle by the clamped elapsed fraction `f`. -/
def generate_partial_candle (G : ℚ → ℚ → ℚ) (msqrt : ℤ → ℚ)
    (seed_base : String) (index : ℤ) (prev_close : ℚ)
    (candle_start_ms server_time_ms timeframe_ms : ℤ) (volatility : ℚ)
    (timeframe_minutes : ℤ) (price_decimals : ℕ) : Candle :=
  let target_candle := generate_deterministic_candle G msqrt seed_base index
    prev_close volatility timeframe_minutes price_decimals candle_start_ms
  let elapsed : ℤ := server_time_ms - candle_start_ms
  let f : ℚ := min 1 (max 0 ((elapsed : ℚ) / (timeframe_ms : ℚ)))
  let open_price := prev_close
  let cur_close := open_price + (target_candle.close - open_price) * f
  let factors := intraday_factors G seed_base index volatility
  let cur_high := max open_price cur_close * (1 + factors.1 * f)
  let cur_low := min open_price cur_close * (1 - factors.2 * f)
  ⟨candle_start_ms, round_price price_decimals open_price,
   round_price price_decimals cur_high, round_price price_decimals cur_low,
   round_price price_decimals cur_close,
   pyInt ((target_candle.volume : ℚ) * f), true⟩

/-! ### Rounding lemmas -/

lemma round_mono {x y : ℚ} (h : x ≤ y) : round x ≤ round y := by
  rw [round_eq, round_eq]
  exact Int.floor_mono (by linarith)

lemma round_price_mono (d : ℕ) : Monotone (round_price d) := by
  intro x y h
  unfold round_price
  rw [div_le_div_iff_of_pos_right (by positivity)]
  exact_mod_cast round_mono (mul_le_mul_of_nonneg_right h (by positivity))

lemma round_price_idem (d : ℕ) (q : ℚ) :
    round_price d (round_price d q) = round_price d q := by
  unfold round_price
  rw [div_mul_cancel₀ _ (by positivity : (10 : ℚ) ^ d ≠ 0), round_intCast]

lemma round_price_nonneg (d : ℕ) {q : ℚ} (h : 0 ≤ q) : 0 ≤ round_price d q := by
  unfold round_price
  have h0 : round (0 : ℚ) ≤ round (q * 10 ^ d) :=
    round_mono (by positivity)
  rw [round_zero] at h0
  have : (0 : ℚ) ≤ ((round (q * 10 ^ d) : ℤ) : ℚ) := by exact_mod_cast h0
  positivity

/-- C2. Partial continuity: at elapsed fraction `f = 1`
(`server_time_ms = candle_start_ms + timeframe_ms`), the partial candle's
close equals the completed candle's close within `10^-price_decimals`
(in fact exactly). -/
theorem C2_partial_continuity (G : ℚ → ℚ → ℚ) (msqrt : ℤ → ℚ)
    (seed_base : String) (index : ℤ) (prev_close volatility : ℚ)
    (timeframe_minutes : ℤ) (price_decimals : ℕ)
    (candle_start_ms timeframe_ms : ℤ) (htf : 0 < timeframe_ms) :
    |(generate_partial_candle G msqrt seed_base index prev_close
        candle_start_ms (candle_start_ms + timeframe_ms) timeframe_ms
        volatility timeframe_minutes price_decimals).close
      - (generate_deterministic_candle G msqrt seed_base index prev_close
          volatility timeframe_minutes price_decimals candle_start_ms).close|
    ≤ 1 / 10 ^ price_decimals := by
  have htf0 : ((timeframe_ms : ℤ) : ℚ) ≠ 0 := Int.cast_ne_zero.mpr (by omega)
  simp only [generate_partial_candle]
  rw [add_sub_cancel_left, div_self htf0]
  norm_num
  rw [show (generate_deterministic_candle G msqrt seed_base index prev_close
      volatility timeframe_minutes price_decimals candle_start_ms).close
    = round_price price_decimals (close_raw G msqrt seed_base index prev_close
        volatility timeframe_minutes) from rfl]
  rw [round_price_idem]
  simp only [sub_self, abs_zero]
  positivity

/-- Witness for C2 at a concrete input. -/
theorem C2_partial_continuity_witness :
    (0 : ℤ) < 60000
    ∧ |(generate_partial_candle (fun _ _ => 0) (fun _ => 1) "EURUSD|1|v1|" 0 100
          0 (0 + 60000) 60000 (2 / 100) 1 2).close
        - (generate_deterministic_candle (fun _ _ => 0) (fun _ => 1) "EURUSD|1|v1|"
            0 100 (2 / 100) 1 2 0).close| ≤ 1 / 10 ^ 2 :=
  ⟨by norm_num,
   C2_partial_continuity (fun _ _ => 0) (fun _ => 1) "EURUSD|1|v1|" 0 100
     (2 / 100) 1 2 0 60000 (by norm_num)⟩

/-- C10. When `server_time_ms ≤ candle_start_ms` the elapsed fraction clamps
to 0 and the partial candle degenerates: all four prices equal
`round(prev_close)`, the volume is 0, and `is_partial` is true. -/
theorem C10_partial_clamped_zero (G : ℚ → ℚ → ℚ) (msqrt : ℤ → ℚ)
    (seed_base : String) (index : ℤ) (prev_close volatility : ℚ)
    (timeframe_minutes : ℤ) (price_decimals : ℕ)
    (candle_start_ms server_time_ms timeframe_ms : ℤ)
    (hle : server_time_ms ≤ candle_start_ms) (htf : 0 < timeframe_ms) :
    (generate_partial_candle G msqrt seed_base index prev_close
        candle_start_ms server_time_ms timeframe_ms volatility
        timeframe_minutes price_decimals)
      = ⟨candle_start_ms, round_price price_decimals prev_close,
         round_price price_decimals prev_close,
         round_price price_decimals prev_close,
         round_price price_decimals prev_close, 0, true⟩ := by
  have hnum : ((server_time_ms - candle_start_ms : ℤ) : ℚ) ≤ 0 := by
    exact_mod_cast sub_nonpos.mpr hle
  have hden : (0 : ℚ) ≤ ((timeframe_ms : ℤ) : ℚ) := by
    exact_mod_cast le_of_lt htf
  have hf : min (1 : ℚ)
      (max 0 (((server_time_ms - candle_start_ms : ℤ) : ℚ) / (timeframe_ms : ℚ)))
      = 0 := by
    rw [max_eq_left (div_nonpos_of_nonpos_of_nonneg hnum hden)]
    norm_num
  simp only [generate_partial_candle]
  rw [hf]
  rw [show ∀ x : ℚ, prev_close + (x - prev_close) * 0 = prev_close
      from fun x => by ring]
  rw [max_self, min_self]
  rw [show ∀ y : ℚ, prev_close * (1 + y * 0) = prev_close from fun y => by ring]
  rw [show ∀ y : ℚ, prev_close * (1 - y * 0) = prev_close from fun y => by ring]
  rw [mul_zero]
  simp [pyInt]

/-- Witness for C10 at a concrete input. -/
theorem C10_partial_clamped_zero_witness :
    ((-5000 : ℤ) ≤ 0 ∧ (0 : ℤ) < 60000)
    ∧ (generate_partial_candle (fun _ _ => 0) (fun _ => 1) "EURUSD|1|v1|" 3 100
          0 (-5000) 60000 (2 / 100) 1 2)
        = ⟨0, round_price 2 100, round_price 2 100, round_price 2 100,
           round_price 2 100, 0, true⟩ :=
  ⟨⟨by norm_num, by norm_num⟩,
   C10_partial_clamped_zero (fun _ _ => 0) (fun _ => 1) "EURUSD|1|v1|" 3 100
     (2 / 100) 1 2 0 (-5000) 60000 (by norm_num) (by norm_num)⟩

/-! ### Series generation -/

/-- `seed_base = f"{symbol}|{timeframe_minutes}|{version}|{date_range_start_iso}"`. -/
def seed_base_of (symbol : String) (timeframe_minutes : ℤ) (version : String)
    (date_range_start_iso : String) : String :=
  symbol ++ "|" ++ toString timeframe_minutes ++ "|" ++ version ++ "|"
    ++ date_range_start_iso

/-- The loop body of `generate_series`: at absolute candle index `i`, with
`k` candles still to produce, generate the candle and chain its close into
the next iteration. -/
def series_go (G : ℚ → ℚ → ℚ) (msqrt : ℤ → ℚ) (seed_base : String)
    (volatility : ℚ) (timeframe_minutes : ℤ) (price_decimals : ℕ)
    (start_time_ms : ℤ) : ℕ → ℕ → ℚ → List Candle
  | _, 0, _ => []
  | i, k + 1, prev_close =>
      let candle := generate_deterministic_candle G msqrt seed_base (i : ℤ)
        prev_close volatility timeframe_minutes price_decimals
        (start_time_ms + (i : ℤ) * (timeframe_minutes * 60 * 1000))
      candle :: series_go G msqrt seed_base volatility timeframe_minutes
        price_decimals start_time_ms (i + 1) k candle.close

/-- `generate_series`: `count` candles starting from `initial_price`,
`start_time_ms + i * timeframe_ms` as each start time. -/
def generate_series (G : ℚ → ℚ → ℚ) (msqrt : ℤ → ℚ) (symbol : String)
    (timeframe_minutes : ℤ) (version : String) (start_time_ms : ℤ)
    (count : ℕ) (initial_price volatility : ℚ) (price_decimals : ℕ)
    (date_range_start_iso : String) : List Candle :=
  series_go G msqrt (seed_base_of symbol timeframe_minutes version date_range_start_iso)
    volatility timeframe_minutes price_decimals start_time_ms 0 count initial_price

/-- The spec's manual-chaining construction: the `prev_close` fed into candle
`i` when candles `0 .. i-1` are generated one by one with
`generate_deterministic_candle`, each close chained into the next call. -/
def chained_prev_close (G : ℚ → ℚ → ℚ) (msqrt : ℤ → ℚ) (seed_base : String)
    (initial_price volatility : ℚ) (timeframe_minutes : ℤ)
    (price_decimals : ℕ) (start_time_ms : ℤ) : ℕ → ℚ
  | 0 => initial_price
  | i + 1 =>
      (generate_deterministic_candle G msqrt seed_base (i : ℤ)
        (chained_prev_close G msqrt seed_base initial_price volatility
          timeframe_minutes price_decimals start_time_ms i)
        volatility timeframe_minutes price_decimals
        (start_time_ms + (i : ℤ) * (timeframe_minutes * 60 * 1000))).close

lemma series_go_getElem (G : ℚ → ℚ → ℚ) (msqrt : ℤ → ℚ) (seed_base : String)
    (initial_price volatility : ℚ) (timeframe_minutes : ℤ)
    (price_decimals : ℕ) (start_time_ms : ℤ) :
    ∀ (k j i0 : ℕ), j < k →
      (series_go G msqrt seed_base volatility timeframe_minutes price_decimals
          start_time_ms i0 k
          (chained_prev_close G msqrt seed_base initial_price volatility
            timeframe_minutes price_decimals start_time_ms i0))[j]?
      = some (generate_deterministic_candle G msqrt seed_base ((i0 + j : ℕ) : ℤ)
          (chained_prev_close G msqrt seed_base initial_price volatility
            timeframe_minutes price_decimals start_time_ms (i0 + j))
          volatility timeframe_minutes price_decimals
          (start_time_ms + ((i0 + j : ℕ) : ℤ) * (timeframe_minutes * 60 * 1000))) := by
  intro k
  induction k with
  | zero => intro j i0 h; omega
  | succ k ih =>
    intro j i0 _hj
    rw [series_go]
    have hchain : (generate_deterministic_candle G msqrt seed_base (i0 : ℤ)
        (chained_prev_close G msqrt seed_base initial_price volatility
          timeframe_minutes price_decimals start_time_ms i0)
        volatility timeframe_minutes price_decimals
        (start_time_ms + (i0 : ℤ) * (timeframe_minutes * 60 * 1000))).close
        = chained_prev_close G msqrt seed_base initial_price volatility
            timeframe_minutes price_decimals start_time_ms (i0 + 1) := rfl
    cases j with
    | zero => simp
    | succ j =>
      rw [List.getElem?_cons_succ, hchain, ih j (i0 + 1) (by omega)]
      have h1 : i0 + 1 + j = i0 + (j + 1) := by omega
      rw [h1]

/-- C3. Chaining equivalence: candle `i` of `generate_series` equals
`generate_deterministic_candle` at index `i` fed with the manually chained
previous close and start time `start_time_ms + i * timeframe_ms`; and
`generate_series` with `count = 0` returns the empty list. -/
theorem C3_chaining_equivalence (G : ℚ → ℚ → ℚ) (msqrt : ℤ → ℚ)
    (symbol : String) (timeframe_minutes : ℤ) (version : String)
    (start_time_ms : ℤ) (count : ℕ) (initial_price volatility : ℚ)
    (price_decimals : ℕ) (date_range_start_iso : String) :
    (∀ i : ℕ, i < count →
      (generate_series G msqrt symbol timeframe_minutes version start_time_ms
          count initial_price volatility price_decimals date_range_start_iso)[i]?
        = some (generate_deterministic_candle G msqrt
            (seed_base_of symbol timeframe_minutes version date_range_start_iso)
            (i : ℤ)
            (chained_prev_close G msqrt
              (seed_base_of symbol timeframe_minutes version date_range_start_iso)
              initial_price volatility timeframe_minutes price_decimals
              start_time_ms i)
            volatility timeframe_minutes price_decimals
            (start_time_ms + (i : ℤ) * (timeframe_minutes * 60 * 1000))))
    ∧ generate_series G msqrt symbol timeframe_minutes version start_time_ms
        0 initial_price volatility price_decimals date_range_start_iso = [] := by
  constructor
  · intro i hi
    have h := series_go_getElem G msqrt
      (seed_base_of symbol timeframe_minutes version date_range_start_iso)
      initial_price volatility timeframe_minutes price_decimals start_time_ms
      count i 0 hi
    simpa using h
  · rfl

/-- Witness for C3 at a concrete input. -/
theorem C3_chaining_equivalence_witness :
    (0 : ℕ) < 3
    ∧ (generate_series (fun _ _ => 0) (fun _ => 1) "BTCUSD" 1 "v1" 0 3 42000
        (2 / 100) 2 "")[0]?
      = some (generate_deterministic_candle (fun _ _ => 0) (fun _ => 1)
          (seed_base_of "BTCUSD" 1 "v1" "") (0 : ℤ)
          (chained_prev_close (fun _ _ => 0) (fun _ => 1)
            (seed_base_of "BTCUSD" 1 "v1" "") 42000 (2 / 100) 1 2 0 0)
          (2 / 100) 1 2 (0 + (0 : ℤ) * (1 * 60 * 1000))) :=
  ⟨by norm_num,
   (C3_chaining_equivalence (fun _ _ => 0) (fun _ => 1) "BTCUSD" 1 "v1" 0 3
     42000 (2 / 100) 2 "").1 0 (by norm_num)⟩

/-! ### OHLC invariant -/

lemma round_price_intCast (d : ℕ) (n : ℤ) :
    round_price d ((n : ℚ)) = (n : ℚ) := by
  unfold round_price
  rw [show ((n : ℚ) * 10 ^ d) = ((n * 10 ^ d : ℤ) : ℚ) by push_cast; ring,
    round_intCast]
  push_cast
  rw [mul_div_cancel_right₀ _ (by positivity : (10 : ℚ) ^ d ≠ 0)]

lemma intraday_factors_nonneg (G : ℚ → ℚ → ℚ) (sb : String) (idx : ℤ)
    {v : ℚ} (hv : 0 ≤ v) :
    0 ≤ (intraday_factors G sb idx v).1 ∧ 0 ≤ (intraday_factors G sb idx v).2 := by
  unfold intraday_factors
  exact ⟨mul_nonneg (mul_nonneg (abs_nonneg _) hv) (by norm_num),
    mul_nonneg (mul_nonneg (abs_nonneg _) hv) (by norm_num)⟩

/-- Core of the OHLC invariant: with nonnegative open, close and factors,
the rounded low/high bracket the rounded open/close. -/
lemma ohlc_core (d : ℕ) (o c hf lf : ℚ) (ho : 0 ≤ o) (hc : 0 ≤ c)
    (hhf : 0 ≤ hf) (hlf : 0 ≤ lf) :
    round_price d (min o c * (1 - lf)) ≤ min (round_price d o) (round_price d c)
    ∧ max (round_price d o) (round_price d c)
        ≤ round_price d (max o c * (1 + hf)) := by
  have hmin : 0 ≤ min o c := le_min ho hc
  have hmax : 0 ≤ max o c := le_trans ho (le_max_left o c)
  constructor
  · have h1 : min o c * (1 - lf) ≤ min o c := by nlinarith
    have h2 := (round_price_mono d) h1
    rw [(round_price_mono d).map_min] at h2
    exact h2
  · have h1 : max o c ≤ max o c * (1 + hf) := by nlinarith
    have h2 := (round_price_mono d) h1
    rw [(round_price_mono d).map_max] at h2
    exact h2

/-- Counterexample to C4 as stated ("any input parameters"): with negative
volatility the high factor is negative and the rounded high falls strictly
below the rounded open, already at volatility `-1` and a Gaussian stand-in
value of `1`. -/
theorem C4_counterexample :
    ¬ ((generate_deterministic_candle (fun _ _ => 1) (fun _ => 1)
          "x" 0 100 (-1) 1 2 0).low
        ≤ min (generate_deterministic_candle (fun _ _ => 1) (fun _ => 1)
            "x" 0 100 (-1) 1 2 0).open_
            (generate_deterministic_candle (fun _ _ => 1) (fun _ => 1)
              "x" 0 100 (-1) 1 2 0).close
      ∧ max (generate_deterministic_candle (fun _ _ => 1) (fun _ => 1)
            "x" 0 100 (-1) 1 2 0).open_
            (generate_deterministic_candle (fun _ _ => 1) (fun _ => 1)
              "x" 0 100 (-1) 1 2 0).close
        ≤ (generate_deterministic_candle (fun _ _ => 1) (fun _ => 1)
            "x" 0 100 (-1) 1 2 0).high) := by
  intro h
  have h2 := h.2
  have hraw : close_raw (fun _ _ => 1) (fun _ => 1) "x" 0 100 (-1) 1 = 0 := by
    simp only [close_raw, gaussian_draw]
    norm_num
  have hfac : (intraday_factors (fun _ _ => 1) "x" 0 (-1)).1 = -(3 / 10) := by
    simp only [intraday_factors, gaussian_draw]
    norm_num
  simp only [generate_deterministic_candle] at h2
  rw [hraw, hfac] at h2
  rw [show max (100 : ℚ) 0 = 100 from max_eq_left (by norm_num)] at h2
  rw [show (100 : ℚ) * (1 + -(3 / 10)) = ((70 : ℤ) : ℚ) by norm_num] at h2
  rw [show (100 : ℚ) = ((100 : ℤ) : ℚ) by norm_num] at h2
  rw [show (0 : ℚ) = ((0 : ℤ) : ℚ) by norm_num] at h2
  rw [round_price_intCast, round_price_intCast, round_price_intCast] at h2
  rw [show max ((100 : ℤ) : ℚ) ((0 : ℤ) : ℚ) = 100 from max_eq_left (by norm_num)]
    at h2
  norm_num at h2

/-- C4 amended. OHLC invariant for complete and partial candles, under the
domain restrictions the code actually needs: nonnegative volatility,
nonnegative previous close, and a nonnegative un-rounded close. -/
theorem C4_ohlc_invariant (G : ℚ → ℚ → ℚ) (msqrt : ℤ → ℚ)
    (seed_base : String) (index : ℤ) (prev_close volatility : ℚ)
    (timeframe_minutes : ℤ) (price_decimals : ℕ)
    (start_time_ms candle_start_ms server_time_ms timeframe_ms : ℤ)
    (hvol : 0 ≤ volatility) (hprev : 0 ≤ prev_close)
    (hclose : 0 ≤ close_raw G msqrt seed_base index prev_close volatility
        timeframe_minutes) :
    ((generate_deterministic_candle G msqrt seed_base index prev_close
        volatility timeframe_minutes price_decimals start_time_ms).low
      ≤ min (generate_deterministic_candle G msqrt seed_base index prev_close
          volatility timeframe_minutes price_decimals start_time_ms).open_
          (generate_deterministic_candle G msqrt seed_base index prev_close
            volatility timeframe_minutes price_decimals start_time_ms).close
    ∧ max (generate_deterministic_candle G msqrt seed_base index prev_close
          volatility timeframe_minutes price_decimals start_time_ms).open_
          (generate_deterministic_candle G msqrt seed_base index prev_close
            volatility timeframe_minutes price_decimals start_time_ms).close
      ≤ (generate_deterministic_candle G msqrt seed_base index prev_close
          volatility timeframe_minutes price_decimals start_time_ms).high)
    ∧ ((generate_partial_candle G msqrt seed_base index prev_close
          candle_start_ms server_time_ms timeframe_ms volatility
          timeframe_minutes price_decimals).low
        ≤ min (generate_partial_candle G msqrt seed_base index prev_close
            candle_start_ms server_time_ms timeframe_ms volatility
            timeframe_minutes price_decimals).open_
            (generate_partial_candle G msqrt seed_base index prev_close
              candle_start_ms server_time_ms timeframe_ms volatility
              timeframe_minutes price_decimals).close
      ∧ max (generate_partial_candle G msqrt seed_base index prev_close
            candle_start_ms server_time_ms timeframe_ms volatility
            timeframe_minutes price_decimals).open_
            (generate_partial_candle G msqrt seed_base index prev_close
              candle_start_ms server_time_ms timeframe_ms volatility
              timeframe_minutes price_decimals).close
        ≤ (generate_partial_candle G msqrt seed_base index prev_close
            candle_start_ms server_time_ms timeframe_ms volatility
            timeframe_minutes price_decimals).high) := by
  obtain ⟨hhf, hlf⟩ := intraday_factors_nonneg G seed_base index hvol
  constructor
  · simp only [generate_deterministic_candle]
    exact ohlc_core price_decimals prev_close
      (close_raw G msqrt seed_base index prev_close volatility timeframe_minutes)
      (intraday_factors G seed_base index volatility).1
      (intraday_factors G seed_base index volatility).2
      hprev hclose hhf hlf
  · simp only [generate_partial_candle, generate_deterministic_candle]
    set f := min (1 : ℚ)
      (max 0 (((server_time_ms - candle_start_ms : ℤ) : ℚ) / (timeframe_ms : ℚ)))
      with hfdef
    have hf0 : 0 ≤ f := le_min (by norm_num) (le_max_left 0 _)
    have hf1 : f ≤ 1 := min_le_left _ _
    have htc : 0 ≤ round_price price_decimals
        (close_raw G msqrt seed_base index prev_close volatility
          timeframe_minutes) := round_price_nonneg _ hclose
    have hcur : 0 ≤ prev_close
        + (round_price price_decimals
            (close_raw G msqrt seed_base index prev_close volatility
              timeframe_minutes) - prev_close) * f := by
      nlinarith [mul_nonneg hprev (sub_nonneg.mpr hf1), mul_nonneg htc hf0]
    exact ohlc_core price_decimals prev_close _
      ((intraday_factors G seed_base index volatility).1 * f)
      ((intraday_factors G seed_base index volatility).2 * f)
      hprev hcur (mul_nonneg hhf hf0) (mul_nonneg hlf hf0)

/-- Witness for C4 (amended) at a concrete input. -/
theorem C4_ohlc_invariant_witness :
    ((0 : ℚ) ≤ 2 / 100 ∧ (0 : ℚ) ≤ 100
      ∧ 0 ≤ close_raw (fun _ _ => 0) (fun _ => 1) "s" 0 100 (2 / 100) 1)
    ∧ max (generate_deterministic_candle (fun _ _ => 0) (fun _ => 1)
          "s" 0 100 (2 / 100) 1 2 0).open_
          (generate_deterministic_candle (fun _ _ => 0) (fun _ => 1)
            "s" 0 100 (2 / 100) 1 2 0).close
      ≤ (generate_deterministic_candle (fun _ _ => 0) (fun _ => 1)
          "s" 0 100 (2 / 100) 1 2 0).high :=
  ⟨⟨by norm_num, by norm_num,
    by simp only [close_raw, gaussian_draw]; norm_num⟩,
   (C4_ohlc_invariant (fun _ _ => 0) (fun _ => 1) "s" 0 100 (2 / 100) 1 2 0 0 0 1
     (by norm_num) (by norm_num)
     (by simp only [close_raw, gaussian_draw]; norm_num)).1.2⟩

/-! ## Candle store — src/broker/services/candle_db.py

The sqlite `candles` table is modelled as a list of typed rows (insertion
order = `id` order).  A row holds exactly the columns written by
`save_candle`: the key plus `start_time_ms, open, high, low, close` —
no volume column exists. -/

structure CandleRow where
  symbol : String
  timeframe_minutes : ℤ
  version : String
  start_time_ms : ℤ
  open_ : ℚ
  high : ℚ
  low : ℚ
  close : ℚ
deriving DecidableEq

abbrev CandleStore := List CandleRow

/-- The existence check (`SELECT id FROM candles WHERE symbol = ? AND
timeframe_minutes = ? AND version = ? AND start_time_ms = ?`). -/
def find_candle_row (store : CandleStore) (symbol : String)
    (timeframe_minutes : ℤ) (version : String) (start_time_ms : ℤ) :
    Option CandleRow :=
  store.find? (fun r =>
    r.symbol == symbol && r.timeframe_minutes == timeframe_minutes
      && r.version == version && r.start_time_ms == start_time_ms)

/-- `save_candle`: insert-only.  If a row for the key and start time exists,
return `False` and leave the store untouched; otherwise insert the row built
from `start_time_ms, open, high, low, close` (the candle's volume and
partial flag are not persisted) and return `True`. -/
def save_candle (store : CandleStore) (symbol : String)
    (timeframe_minutes : ℤ) (version : String) (candle : Candle) :
    Bool × CandleStore :=
  match find_candle_row store symbol timeframe_minutes version
      candle.start_time_ms with
  | some _ => (false, store)
  | none => (true, store ++ [⟨symbol, timeframe_minutes, version,
      candle.start_time_ms, candle.open_, candle.high, candle.low,
      candle.close⟩])

/-- Key filter common to the queries. -/
def row_matches_key (symbol : String) (timeframe_minutes : ℤ)
    (version : String) (r : CandleRow) : Bool :=
  r.symbol == symbol && r.timeframe_minutes == timeframe_minutes
    && r.version == version

/-- Insertion into a list kept in descending `start_time_ms` order
(modelling `ORDER BY start_time_ms DESC` with ties left in scan order). -/
def insert_desc (r : CandleRow) : List CandleRow → List CandleRow
  | [] => [r]
  | x :: xs =>
      if x.start_time_ms < r.start_time_ms then r :: x :: xs
      else x :: insert_desc r xs

def sort_desc (l : List CandleRow) : List CandleRow := l.foldr insert_desc []

/-- `get_candles`: the most recent `count` rows for the key (optionally at or
before `end_time_ms`), returned ascending.  Python checks
`if end_time_ms:` — a value of `0` (or `None`) disables the bound
(truthiness). -/
def get_candles (store : CandleStore) (symbol : String)
    (timeframe_minutes : ℤ) (version : String) (count : ℕ)
    (end_time_ms : Option ℤ) : List CandleRow :=
  let bound : Option ℤ :=
    match end_time_ms with
    | some e => if e = 0 then none else some e
    | none => none
  let rows := store.filter (fun r =>
    row_matches_key symbol timeframe_minutes version r
      && match bound with
         | some e => r.start_time_ms ≤ e
         | none => true)
  ((sort_desc rows).take count).reverse

/-- `get_latest_candle`: the row with the greatest `start_time_ms` for the
key (`ORDER BY start_time_ms DESC LIMIT 1`). -/
def get_latest_candle (store : CandleStore) (symbol : String)
    (timeframe_minutes : ℤ) (version : String) : Option CandleRow :=
  (store.filter (row_matches_key symbol timeframe_minutes version)).foldl
    (fun acc r =>
      match acc with
      | none => some r
      | some m => if m.start_time_ms < r.start_time_ms then some r else some m)
    none

/-- C5. Completed-candle immutability: on a store with no row for the key and
start time, the first `save_candle` returns `True` and stores the candle's
values; a second call for the same key and start time — with any payload —
returns `False` and leaves the store exactly as after the first call. -/
theorem C5_save_candle_immutable (store : CandleStore) (symbol : String)
    (timeframe_minutes : ℤ) (version : String) (c c2 : Candle)
    (hnew : find_candle_row store symbol timeframe_minutes version
        c.start_time_ms = none)
    (hsame : c2.start_time_ms = c.start_time_ms) :
    (save_candle store symbol timeframe_minutes version c).1 = true
    ∧ save_candle (save_candle store symbol timeframe_minutes version c).2
        symbol timeframe_minutes version c2
      = (false, (save_candle store symbol timeframe_minutes version c).2)
    ∧ find_candle_row (save_candle store symbol timeframe_minutes version c).2
        symbol timeframe_minutes version c.start_time_ms
      = some ⟨symbol, timeframe_minutes, version, c.start_time_ms, c.open_,
          c.high, c.low, c.close⟩ := by
  have hsave : save_candle store symbol timeframe_minutes version c
      = (true, store ++ [⟨symbol, timeframe_minutes, version, c.start_time_ms,
          c.open_, c.high, c.low, c.close⟩]) := by
    unfold save_candle
    rw [hnew]
  have hfind : find_candle_row
      (store ++ [⟨symbol, timeframe_minutes, version, c.start_time_ms,
        c.open_, c.high, c.low, c.close⟩])
      symbol timeframe_minutes version c.start_time_ms
      = some ⟨symbol, timeframe_minutes, version, c.start_time_ms, c.open_,
          c.high, c.low, c.close⟩ := by
    unfold find_candle_row at hnew ⊢
    rw [List.find?_append, hnew]
    simp [List.find?_cons]
  refine ⟨by rw [hsave], ?_, by rw [hsave]; exact hfind⟩
  rw [hsave]
  unfold save_candle
  rw [hsame, hfind]

/-- Witness for C5 at a concrete input (empty store; second payload differs
from the first in every price field). -/
theorem C5_save_candle_immutable_witness :
    (find_candle_row [] "EURUSD" 1 "v1" (0 : ℤ) = none
      ∧ (Candle.mk 0 7 8 6 7 55 false).start_time_ms
          = (Candle.mk 0 1 2 0 1 99 false).start_time_ms)
    ∧ save_candle (save_candle [] "EURUSD" 1 "v1"
          (Candle.mk 0 1 2 0 1 99 false)).2 "EURUSD" 1 "v1"
        (Candle.mk 0 7 8 6 7 55 false)
      = (false, (save_candle [] "EURUSD" 1 "v1"
          (Candle.mk 0 1 2 0 1 99 false)).2) :=
  ⟨⟨rfl, rfl⟩,
   (C5_save_candle_immutable [] "EURUSD" 1 "v1"
     (Candle.mk 0 1 2 0 1 99 false) (Candle.mk 0 7 8 6 7 55 false)
     rfl rfl).2.1⟩

/-- C9. The store discards a candle's volume (and partial flag): saving two
candles that differ only in those fields produces identical results and
identical stores, hence identical answers from `get_candles` and
`get_latest_candle` — volume does not survive a round-trip. -/
theorem C9_volume_not_persisted (store : CandleStore) (symbol : String)
    (timeframe_minutes : ℤ) (version : String) (c : Candle) (v : ℤ)
    (b : Bool) :
    save_candle store symbol timeframe_minutes version
        ⟨c.start_time_ms, c.open_, c.high, c.low, c.close, v, b⟩
      = save_candle store symbol timeframe_minutes version c
    ∧ get_candles (save_candle store symbol timeframe_minutes version
          ⟨c.start_time_ms, c.open_, c.high, c.low, c.close, v, b⟩).2
        symbol timeframe_minutes version 500 none
      = get_candles (save_candle store symbol timeframe_minutes version c).2
          symbol timeframe_minutes version 500 none
    ∧ get_latest_candle (save_candle store symbol timeframe_minutes version
          ⟨c.start_time_ms, c.open_, c.high, c.low, c.close, v, b⟩).2
        symbol timeframe_minutes version
      = get_latest_candle (save_candle store symbol timeframe_minutes version c).2
          symbol timeframe_minutes version := by
  have h : save_candle store symbol timeframe_minutes version
      ⟨c.start_time_ms, c.open_, c.high, c.low, c.close, v, b⟩
      = save_candle store symbol timeframe_minutes version c := rfl
  exact ⟨h, by rw [h], by rw [h]⟩

/-! ## Time bucketing — src/broker/services/deterministic_generator.py -/

/-- `get_candle_index(time_ms, timeframe_minutes)`: Python `//` is floor
division. -/
def get_candle_index (time_ms : ℤ) (timeframe_minutes : ℤ) : ℤ :=
  Int.fdiv time_ms (timeframe_minutes * 60 * 1000)

/-- `get_candle_start_time(index, timeframe_minutes)`. -/
def get_candle_start_time (index : ℤ) (timeframe_minutes : ℤ) : ℤ :=
  index * (timeframe_minutes * 60 * 1000)

/-- C6. Bucketing round-trip: for nonnegative `t` and positive timeframe,
`start_time(index(t)) ≤ t < start_time(index(t) + 1)`. -/
theorem C6_bucketing_round_trip (t tf : ℤ) (_ht : 0 ≤ t) (htf : 0 < tf) :
    get_candle_start_time (get_candle_index t tf) tf ≤ t
    ∧ t < get_candle_start_time (get_candle_index t tf + 1) tf := by
  unfold get_candle_start_time get_candle_index
  have hm : 0 < tf * 60 * 1000 := by positivity
  have hde := Int.fdiv_add_fmod t (tf * 60 * 1000)
  have hnn := Int.fmod_nonneg' t hm
  have hlt := Int.fmod_lt_of_pos t hm
  constructor
  · nlinarith [hde, hnn]
  · nlinarith [hde, hlt]

/-- Witness for C6 at a concrete input. -/
theorem C6_bucketing_round_trip_witness :
    ((0 : ℤ) ≤ 123456789 ∧ (0 : ℤ) < 5)
    ∧ get_candle_start_time (get_candle_index 123456789 5) 5 ≤ 123456789
    ∧ (123456789 : ℤ)
        < get_candle_start_time (get_candle_index 123456789 5 + 1) 5 :=
  ⟨⟨by norm_num, by norm_num⟩,
   C6_bucketing_round_trip 123456789 5 (by norm_num) (by norm_num)⟩

/-! ## Chart service — src/broker/services/chart_service.py -/

/-- ASCII lowercase (Python `str.lower()` restricted to ASCII, which is all
the timeframe strings use). -/
def ascii_lower (c : Char) : Char :=
  if 'A' ≤ c ∧ c ≤ 'Z' then Char.ofNat (c.toNat + 32) else c

def is_py_space (c : Char) : Bool := c.toNat ∈ [9, 10, 11, 12, 13, 32]

def is_ascii_digit (c : Char) : Bool := '0' ≤ c && c ≤ '9'

def digits_value (cs : List Char) : ℕ :=
  cs.foldl (fun n c => n * 10 + (c.toNat - 48)) 0

/-- After an initial digit: digits, with single underscores allowed between
digits (Python `int()` underscore grouping).  Returns the remaining digit
characters or `none` if the shape is invalid. -/
def py_digit_tail : List Char → Option (List Char)
  | [] => some []
  | '_' :: rest =>
      match rest with
      | [] => none
      | c :: rest2 =>
          if is_ascii_digit c then (py_digit_tail rest2).map (c :: ·) else none
  | c :: rest =>
      if is_ascii_digit c then (py_digit_tail rest).map (c :: ·) else none

/-- A nonempty digit group per Python `int()`: first char a digit, then
`py_digit_tail`. -/
def py_digits (cs : List Char) : Option ℕ :=
  match cs with
  | [] => none
  | c :: rest =>
      if is_ascii_digit c then (py_digit_tail rest).map
        (fun ds => digits_value (c :: ds))
      else none

/-- Python `int(s)` on a string: strip whitespace, optional sign, digit
groups; `None` when the string is not a valid integer literal. -/
def py_parse_int (cs : List Char) : Option ℤ :=
  let t := ((cs.dropWhile is_py_space).reverse.dropWhile is_py_space).reverse
  match t with
  | '+' :: rest => (py_digits rest).map (fun n => (n : ℤ))
  | '-' :: rest => (py_digits rest).map (fun n => -(n : ℤ))
  | rest => (py_digits rest).map (fun n => (n : ℤ))

/-- The timeframe-string parsing in `get_otc_chart`, on the lower-cased
character list: `m`-suffix → minutes (min 5 s), `s`-suffix → seconds
(min 5 s), `h`-suffix → hours (min 60 s); `int()` failure falls back to the
value set in the `except` arm of each branch (60, 60 and 3600 respectively);
no recognised suffix leaves the initial 60. -/
def parse_timeframe_chars (tf : List Char) : ℤ :=
  if tf.getLast? = some 'm' then
    match py_parse_int tf.dropLast with
    | some n => max (n * 60) 5
    | none => 60
  else if tf.getLast? = some 's' then
    match py_parse_int tf.dropLast with
    | some n => max n 5
    | none => 60
  else if tf.getLast? = some 'h' then
    match py_parse_int tf.dropLast with
    | some n => max (n * 3600) 60
    | none => 3600
  else 60

/-- The `interval_seconds` computed by `get_otc_chart(asset_id, timeframe,
points)` (default timeframe `"1m"`, lower-cased before parsing). -/
def get_otc_chart_interval (timeframe : Option String) : ℤ :=
  parse_timeframe_chars (((timeframe.getD "1m").data).map ascii_lower)

/-- Counterexample to C7 as stated: for the timeframe string `"xh"` the
numeric part is unparsable, yet the interval becomes 3600, not the claimed
default of 60. -/
theorem C7_counterexample :
    get_otc_chart_interval (some "xh") = 3600 ∧ (3600 : ℤ) ≠ 60 := by
  constructor
  · decide
  · decide

/-- C7 amended. Timeframe parsing in `get_otc_chart`: suffix `m` gives
`max(n*60, 5)`, suffix `s` gives `max(n, 5)`, suffix `h` gives
`max(n*3600, 60)`; an unparsable numeric part defaults to 60 seconds for the
`m` and `s` suffixes but to 3600 seconds for the `h` suffix. -/
theorem C7_timeframe_parsing :
    (∀ (s : String) (n : ℤ),
      (s.data.map ascii_lower).getLast? = some 'm' →
      py_parse_int (s.data.map ascii_lower).dropLast = some n →
      get_otc_chart_interval (some s) = max (n * 60) 5)
    ∧ (∀ (s : String) (n : ℤ),
      (s.data.map ascii_lower).getLast? = some 's' →
      py_parse_int (s.data.map ascii_lower).dropLast = some n →
      get_otc_chart_interval (some s) = max n 5)
    ∧ (∀ (s : String) (n : ℤ),
      (s.data.map ascii_lower).getLast? = some 'h' →
      py_parse_int (s.data.map ascii_lower).dropLast = some n →
      get_otc_chart_interval (some s) = max (n * 3600) 60)
    ∧ (∀ s : String,
      (s.data.map ascii_lower).getLast? = some 'm' →
      py_parse_int (s.data.map ascii_lower).dropLast = none →
      get_otc_chart_interval (some s) = 60)
    ∧ (∀ s : String,
      (s.data.map ascii_lower).getLast? = some 's' →
      py_parse_int (s.data.map ascii_lower).dropLast = none →
      get_otc_chart_interval (some s) = 60)
    ∧ (∀ s : String,
      (s.data.map ascii_lower).getLast? = some 'h' →
      py_parse_int (s.data.map ascii_lower).dropLast = none →
      get_otc_chart_interval (some s) = 3600) := by
  refine ⟨?_, ?_, ?_, ?_, ?_, ?_⟩ <;>
    intro s
  · intro n h1 h2
    unfold get_otc_chart_interval parse_timeframe_chars
    simp only [Option.getD_some]
    rw [h1, h2]
    simp
  · intro n h1 h2
    unfold get_otc_chart_interval parse_timeframe_chars
    simp only [Option.getD_some]
    rw [h1, h2]
    simp
  · intro n h1 h2
    unfold get_otc_chart_interval parse_timeframe_chars
    simp only [Option.getD_some]
    rw [h1, h2]
    simp
  · intro h1 h2
    unfold get_otc_chart_interval parse_timeframe_chars
    simp only [Option.getD_some]
    rw [h1, h2]
    simp
  · intro h1 h2
    unfold get_otc_chart_interval parse_timeframe_chars
    simp only [Option.getD_some]
    rw [h1, h2]
    simp
  · intro h1 h2
    unfold get_otc_chart_interval parse_timeframe_chars
    simp only [Option.getD_some]
    rw [h1, h2]
    simp

/-- Witness for C7 (amended), one concrete string per branch. -/
theorem C7_timeframe_parsing_witness :
    (("2m".data.map ascii_lower).getLast? = some 'm'
      ∧ py_parse_int ("2m".data.map ascii_lower).dropLast = some 2
      ∧ get_otc_chart_interval (some "2m") = max ((2 : ℤ) * 60) 5)
    ∧ (("30s".data.map ascii_lower).getLast? = some 's'
      ∧ py_parse_int ("30s".data.map ascii_lower).dropLast = some 30
      ∧ get_otc_chart_interval (some "30s") = max (30 : ℤ) 5)
    ∧ (("2H".data.map ascii_lower).getLast? = some 'h'
      ∧ py_parse_int ("2H".data.map ascii_lower).dropLast = some 2
      ∧ get_otc_chart_interval (some "2H") = max ((2 : ℤ) * 3600) 60)
    ∧ (("ym".data.map ascii_lower).getLast? = some 'm'
      ∧ py_parse_int ("ym".data.map ascii_lower).dropLast = none
      ∧ get_otc_chart_interval (some "ym") = 60)
    ∧ (("ys".data.map ascii_lower).getLast? = some 's'
      ∧ py_parse_int ("ys".data.map ascii_lower).dropLast = none
      ∧ get_otc_chart_interval (some "ys") = 60)
    ∧ (("yh".data.map ascii_lower).getLast? = some 'h'
      ∧ py_parse_int ("yh".data.map ascii_lower).dropLast = none
      ∧ get_otc_chart_interval (some "yh") = 3600) :=
  ⟨⟨by decide, by decide, C7_timeframe_parsing.1 "2m" 2 (by decide) (by decide)⟩,
   ⟨by decide, by decide,
    C7_timeframe_parsing.2.1 "30s" 30 (by decide) (by decide)⟩,
   ⟨by decide, by decide,
    C7_timeframe_parsing.2.2.1 "2H" 2 (by decide) (by decide)⟩,
   ⟨by decide, by decide,
    C7_timeframe_parsing.2.2.2.1 "ym" (by decide) (by decide)⟩,
   ⟨by decide, by decide,
    C7_timeframe_parsing.2.2.2.2.1 "ys" (by decide) (by decide)⟩,
   ⟨by decide, by decide,
    C7_timeframe_parsing.2.2.2.2.2 "yh" (by decide) (by decide)⟩⟩

/-- The new last close computed by `apply_trade_movement(asset_id, net)`
from the current close: base move `max(0.0005*current, 0.05)`, scale
`min(max(|net|/10, 0.1), 5.0)`, delta negated for `net < 0`, result floored
at `0.01`. -/
def apply_trade_movement_close (current net : ℚ) : ℚ :=
  let base_move := max (5 / 10000 * current) (5 / 100)
  let scale := min (max (|net| / 10) (1 / 10)) 5
  let delta0 := base_move * scale
  let delta := if net < 0 then -|delta0| else delta0
  max (1 / 100) (current + delta)

/-- The movement as the spec words it, with the direction made explicit:
down for `net < 0` and up otherwise (`net = 0` included). -/
def trade_movement_spec (current net : ℚ) : ℚ :=
  let move := max (5 / 10000 * current) (5 / 100)
    * min (max (|net| / 10) (1 / 10)) 5
  max (1 / 100) (current + (if net < 0 then -move else move))

/-- Counterexample to C8 as stated: a trade with `net = 0` does move the
chart — the close goes from 100 to 100.005 (upward by `base_move * 0.1`). -/
theorem C8_counterexample :
    apply_trade_movement_close 100 0 = 20001 / 200
    ∧ (20001 / 200 : ℚ) ≠ 100 := by
  constructor
  · unfold apply_trade_movement_close
    rw [show |(0 : ℚ)| = 0 from abs_zero]
    rw [show max ((0 : ℚ) / 10) (1 / 10) = 1 / 10 from max_eq_right (by norm_num)]
    rw [show min ((1 : ℚ) / 10) 5 = 1 / 10 from min_eq_left (by norm_num)]
    rw [show max ((5 : ℚ) / 10000 * 100) (5 / 100) = 5 / 100
      from max_eq_right (by norm_num)]
    norm_num
  · norm_num

/-- C8 amended. `apply_trade_movement` moves the last close by
`max(0.0005*p, 0.05) * clamp(|net|/10, 0.1, 5.0)`, downward exactly when
`net < 0` and upward otherwise — including `net = 0`, which nudges the price
up by `base_move * 0.1` — with the result floored at `0.01`. -/
theorem C8_trade_movement (current net : ℚ) :
    apply_trade_movement_close current net = trade_movement_spec current net := by
  simp only [apply_trade_movement_close, trade_movement_spec]
  have hb : (0 : ℚ) < max (5 / 10000 * current) (5 / 100) :=
    lt_max_of_lt_right (by norm_num)
  have hs : (0 : ℚ) < min (max (|net| / 10) (1 / 10)) 5 :=
    lt_min (lt_max_of_lt_right (by norm_num)) (by norm_num)
  have habs : |max (5 / 10000 * current) (5 / 100)
      * min (max (|net| / 10) (1 / 10)) 5|
      = max (5 / 10000 * current) (5 / 100)
        * min (max (|net| / 10) (1 / 10)) 5 :=
    abs_of_pos (mul_pos hb hs)
  rw [habs]

end Bentex
